import Mathlib

/-!
Verification of the StackFlow-API orchestration façade.

The definitions below are a shallow embedding of the server source
(`index.js`): the in-memory JWT cache, the Portainer authentication
functions, the `/api/stack` and `/api/stacks` handlers, the Cloudflare
DNS record upsert, and the tunnel ingress-rule rewrite.  Network calls
are modelled by passing the downstream responses in explicitly as an
environment; the observable trace of downstream calls is returned
alongside the result so that claims about which calls are issued can be
stated and proved.
-/

namespace StackFlow

/-- JavaScript truthiness of an optional string: `null`/`undefined` and
the empty string are falsy, every other string is truthy. -/
def strTruthy : Option String → Bool
  | none => false
  | some s => s ≠ ""

/-- The in-memory JWT cache `jwtCache = { token, expiresAt }`.
`none` models the JS `null`; timestamps are milliseconds since epoch. -/
structure JwtCache where
  token : Option String
  expiresAt : Option Nat
deriving Repr, DecidableEq

/-- The fixed 8-hour validity window used by `authenticatePortainer`
(`8 * 60 * 60 * 1000` milliseconds). -/
def eightHoursMs : Nat := 8 * 60 * 60 * 1000

/-- Model of `authenticatePortainer`: issues the login call (whose outcome is the
`loginResult` argument: `.ok jwt` for a successful response carrying
`response.data.jwt`, `.error d` for a failure with downstream detail
`d`).  On success the cache is replaced by the fresh token with expiry
`now + 8h` and the token is returned; on failure the cache is left
unchanged and the function throws `Error('Falha na autenticação do
Portainer')`. -/
def authenticatePortainer (cache : JwtCache) (now : Nat)
    (loginResult : Except String String) :
    Except String String × JwtCache :=
  match loginResult with
  | .ok jwt => (.ok jwt, { token := some jwt, expiresAt := some (now + eightHoursMs) })
  | .error _ => (.error "Falha na autenticação do Portainer", cache)

/-- Model of `getValidJWT`: `if (jwtCache.token && jwtCache.expiresAt > Date.now())
return jwtCache.token; return await authenticatePortainer();`.
Returns the result, the cache afterwards, and whether the login call was
made (`true` exactly when `authenticatePortainer` ran).  The JS
comparison `null > Date.now()` coerces `null` to `0`, modelled by
`getD 0`. -/
def getValidJWT (cache : JwtCache) (now : Nat)
    (loginResult : Except String String) :
    Except String String × JwtCache × Bool :=
  if strTruthy cache.token ∧ cache.expiresAt.getD 0 > now then
    (.ok (cache.token.getD ""), cache, false)
  else
    let r := authenticatePortainer cache now loginResult
    (r.1, r.2, true)

/-- Response body of `GET /api/auth/status`: `authenticated` is
`!!jwtCache.token`, `timeRemaining` is
`Math.max(0, expiresAt - Date.now())` (or `0` when no expiry is
recorded). -/
structure AuthStatusResp where
  authenticated : Bool
  expiresAt : Option Nat
  timeRemaining : Int
deriving Repr, DecidableEq

/-- Handler of `GET /api/auth/status`. -/
def authStatus (cache : JwtCache) (now : Nat) : AuthStatusResp :=
  { authenticated := strTruthy cache.token
    expiresAt := cache.expiresAt
    timeRemaining :=
      match cache.expiresAt with
      | some e => max 0 ((e : Int) - (now : Int))
      | none => 0 }

/-- The `portainerAuth` field of the `GET /health` response:
`jwtCache.token ? 'authenticated' : 'not_authenticated'`. -/
def healthPortainerAuth (cache : JwtCache) : String :=
  if strTruthy cache.token then "authenticated" else "not_authenticated"

end StackFlow

namespace StackFlow

/-- Claim C1: `getValidJWT` returns the cached token with no login call
exactly when the cache holds a (truthy) token whose recorded expiry is
strictly in the future; otherwise `authenticatePortainer` is invoked
and, on success, its freshly issued token is returned.  In particular a
token is returned from the cache (no login) only when `now` is strictly
before the recorded expiry, so a present-but-expired token is never
served from the cache. -/
theorem getValidJWT_cache_discipline (cache : JwtCache) (now : Nat)
    (loginResult : Except String String) :
    ((strTruthy cache.token ∧ cache.expiresAt.getD 0 > now) →
      getValidJWT cache now loginResult = (.ok (cache.token.getD ""), cache, false)) ∧
    (¬ (strTruthy cache.token ∧ cache.expiresAt.getD 0 > now) →
      (getValidJWT cache now loginResult).2.2 = true ∧
      ∀ jwt, loginResult = .ok jwt →
        (getValidJWT cache now loginResult).1 = .ok jwt) ∧
    ((getValidJWT cache now loginResult).2.2 = false →
      strTruthy cache.token ∧ cache.expiresAt.getD 0 > now) := by
  unfold getValidJWT
  by_cases h : strTruthy cache.token ∧ cache.expiresAt.getD 0 > now
  · refine ⟨fun _ => by simp [h], fun hc => absurd h hc, fun _ => h⟩
  · refine ⟨fun hc => absurd hc h, fun _ => ?_, fun hfalse => ?_⟩
    · refine ⟨by simp [h], fun jwt hj => ?_⟩
      simp [h, hj, authenticatePortainer]
    · simp [h] at hfalse

/-- Witness for C1: concrete instantiation at a cached, unexpired token. -/
theorem getValidJWT_cache_discipline_witness :
    getValidJWT ⟨some "tok", some 100⟩ 50 (.ok "fresh") =
      (.ok "tok", ⟨some "tok", some 100⟩, false) :=
  (getValidJWT_cache_discipline ⟨some "tok", some 100⟩ 50 (.ok "fresh")).1
    (by decide)

/-- Counterexample for C3: the failure value of `authenticatePortainer`
is the fixed string `'Falha na autenticação do Portainer'` regardless of
the downstream error detail, so the operation's failure does not carry
the downstream detail (two distinct downstream failures yield the same
thrown error). -/
theorem authenticatePortainer_detail_lost :
    (authenticatePortainer ⟨none, none⟩ 0 (.error "ECONNREFUSED")).1 =
      (authenticatePortainer ⟨none, none⟩ 0 (.error "Invalid credentials")).1 ∧
    (authenticatePortainer ⟨none, none⟩ 0 (.error "ECONNREFUSED")).1 =
      .error "Falha na autenticação do Portainer" := by
  constructor <;> rfl

/-- Claim C3 (amended): on a failed login the cache is left exactly as
it was and the operation fails with the fixed authentication-failure
error (the downstream detail is only logged, not carried); on success
the cache is atomically replaced with the new token and an expiry of
`now + 8h`, and the new token is returned. -/
theorem authenticatePortainer_cache_contract (cache : JwtCache) (now : Nat)
    (loginResult : Except String String) :
    (∀ d, loginResult = .error d →
      (authenticatePortainer cache now loginResult).2 = cache ∧
      (authenticatePortainer cache now loginResult).1 =
        .error "Falha na autenticação do Portainer") ∧
    (∀ jwt, loginResult = .ok jwt →
      (authenticatePortainer cache now loginResult).2 =
        ⟨some jwt, some (now + eightHoursMs)⟩ ∧
      (authenticatePortainer cache now loginResult).1 = .ok jwt) := by
  constructor
  · intro d hd; subst hd; exact ⟨rfl, rfl⟩
  · intro jwt hj; subst hj; exact ⟨rfl, rfl⟩

/-- Witness for the amended C3: a concrete failed login leaves a
concrete cache untouched. -/
theorem authenticatePortainer_cache_contract_witness :
    (authenticatePortainer ⟨some "old", some 7⟩ 3 (.error "boom")).2 =
      ⟨some "old", some 7⟩ ∧
    (authenticatePortainer ⟨some "old", some 7⟩ 3 (.error "boom")).1 =
      .error "Falha na autenticação do Portainer" :=
  (authenticatePortainer_cache_contract ⟨some "old", some 7⟩ 3 (.error "boom")).1
    "boom" rfl

/-- Claim C10: the credential-state reporting endpoints judge only token
presence, not expiry: whenever a (truthy) token string is cached,
`GET /api/auth/status` reports `authenticated: true` and `GET /health`
reports `'authenticated'`, even when the recorded expiry has passed, in
which case `timeRemaining` is clamped to `0`. -/
theorem authStatus_presence_only (cache : JwtCache) (now : Nat)
    (h : strTruthy cache.token = true) :
    (authStatus cache now).authenticated = true ∧
    healthPortainerAuth cache = "authenticated" ∧
    (∀ e, cache.expiresAt = some e → e ≤ now →
      (authStatus cache now).timeRemaining = 0) := by
  refine ⟨h, by simp [healthPortainerAuth, h], fun e he hle => ?_⟩
  simp only [authStatus, he]
  omega

/-- Witness for C10: a token that expired at time 5 is still reported as
authenticated at time 10, with zero time remaining. -/
theorem authStatus_presence_only_witness :
    (authStatus ⟨some "tok", some 5⟩ 10).authenticated = true ∧
    healthPortainerAuth ⟨some "tok", some 5⟩ = "authenticated" ∧
    (authStatus ⟨some "tok", some 5⟩ 10).timeRemaining = 0 := by
  have h := authStatus_presence_only ⟨some "tok", some 5⟩ 10 (by decide)
  exact ⟨h.1, h.2.1, h.2.2 5 rfl (by decide)⟩

/-- An axios-style error: `status`/`data` model `error.response?.status`
and `error.response?.data` (both absent for a wire error), `message` the
JS `error.message`. -/
structure HttpErr where
  status : Option Nat
  data : Option String := none
  message : String := ""
deriving Repr, DecidableEq

/-- One downstream network call issued by a handler, in order:
the Portainer login (`POST /api/auth`), the cluster/swarm-identifier
lookup (`GET /api/endpoints/:id/docker/swarm`), a stack-creation call
(`POST /api/stacks/create/...` with the given stack name), or the stack
list (`GET /api/stacks`). -/
inductive DownCall where
  | login
  | swarmLookup
  | createStack (name : String)
  | listStacks
deriving Repr, DecidableEq

/-- The `config` object of a stack-creation request; absent fields are
`none` (the template fills defaults for absent redis fields, so only
their presence matters here). -/
structure StackConfig where
  postgresHost : Option String := none
  postgresDb : Option String := none
  postgresPassword : Option String := none
  redisHost : Option String := none
  redisPort : Option String := none
  redisPassword : Option String := none
  versaoN8n : Option String := none
deriving Repr, DecidableEq

/-- Body of `POST /api/stack`. -/
structure StackReq where
  nome : Option String
  tipo : Option String
  rede : Option String
  porta : Option Nat := none
  config : StackConfig := {}
deriving Repr, DecidableEq

/-- Environment of downstream responses for the `/api/stack` handler:
the login outcome, the swarm-lookup outcome, the resolution of each
create call (`.ok id` carries the created stack `Id`), and whether a
create call takes longer than the 30-second `waitWithTimeout` window
(only the workflow fan-out applies that wrapper). -/
structure StackEnv where
  loginResult : Except String String
  swarmResult : Except HttpErr String
  create : String → Except HttpErr Nat
  timedOut : String → Bool

/-- Response of `POST /api/stack`:
`badRequest` is a 400 validation response with the `error` field,
`redisOk` the redis success JSON (name, port, `data.Id`),
`n8nOk` the workflow 200 JSON (`success`, `stacksCriadas`,
`totalStacks`, the `(name, status)` pairs of `stacks`, the
`(stack, message)` pairs of `errors`),
`n8nAllFailed` the 500 all-failed JSON, and
`errorResp` the route-level catch response (status, `details`). -/
inductive StackResp where
  | badRequest (error : String)
  | redisOk (stackName : String) (porta : Nat) (stackId : Nat)
  | n8nOk (success : Bool) (stacksCriadas : Nat) (totalStacks : Nat)
      (created : List (String × String)) (errors : List (String × String))
  | n8nAllFailed (errors : List (String × String))
  | errorResp (status : Nat) (details : String)
deriving Repr, DecidableEq

/-- The route-level `catch` of `/api/stack` and `/api/stacks`: resets
the JWT cache when `error.response?.status === 401`, and responds with
`error.response?.status || 500` and `error.response?.data ||
error.message` as details. -/
def handleAuthCatch (cache : JwtCache) (e : HttpErr) : StackResp × JwtCache :=
  let cache' : JwtCache := if e.status = some 401 then ⟨none, none⟩ else cache
  (.errorResp (e.status.getD 500) (e.data.getD e.message), cache')

/-- One instance of the workflow fan-out: `await waitWithTimeout(
createSingleStack(...), 30000)` inside its own `try`.  A timeout is
optimistically recorded as created with status `'criado'`; a resolution
is recorded `'confirmado'`; a rejection is captured as a per-instance
error with `error.message`.  Returns the `stacksCreated` entry and the
`errors` entry this instance contributes. -/
def runN8nInstance (name key : String) (env : StackEnv) :
    Option (String × String) × Option (String × String) :=
  if env.timedOut name then (some (name, "criado"), none)
  else
    match env.create name with
    | .ok _ => (some (name, "confirmado"), none)
    | .error e => (none, some (key, e.message))

/-- JS `String.prototype.toLowerCase()` (character-wise lowering),
written structurally so that the kernel can evaluate it. -/
def jsToLowerCase (s : String) : String := ⟨s.data.map Char.toLower⟩

/-- Model of `const portaFinal = porta || 6379`: JS falsiness makes an absent
port (and a literal `0`) default to `6379`. -/
def redisPortaFinal : Option Nat → Nat
  | some p => if p ≠ 0 then p else 6379
  | none => 6379

/-- Final aggregation of the workflow fan-out (`// Resposta final`):
all-failed yields the 500 response, otherwise the 200 response with
`success = stacksCreated.length > 0` and `stacksCriadas =
stacksCreated.length` out of `totalStacks = 3`. -/
def n8nAggregate (stacksCreated errors : List (String × String))
    (cache1 : JwtCache) (trace3 : List DownCall) :
    StackResp × JwtCache × List DownCall :=
  if errors.length > 0 ∧ stacksCreated.length = 0 then
    (.n8nAllFailed errors, cache1, trace3)
  else
    (.n8nOk (stacksCreated.length > 0) stacksCreated.length 3 stacksCreated errors,
      cache1, trace3)

/-- The per-kind part of the `/api/stack` handler, entered after the
required-field check, `getPortainerHeaders()` and the swarm lookup have
succeeded: redis port validation and single create, n8n config
validation and three-way fan-out, or the unsupported-kind rejection.
`cache1` is the cache after `getValidJWT` and `trace2` the trace so
far. -/
def stackKindBranch (req : StackReq) (cache1 : JwtCache) (env : StackEnv)
    (trace2 : List DownCall) : StackResp × JwtCache × List DownCall :=
  let tipoLower := jsToLowerCase (req.tipo.getD "")
  if tipoLower = "redis" then
    let portaFinal := redisPortaFinal req.porta
    if portaFinal < 1024 ∨ portaFinal > 65535 then
      (.badRequest "Porta inválida", cache1, trace2)
    else
      let stackName := "redis-" ++ req.nome.getD "" ++ "-" ++ toString portaFinal
      let trace3 := trace2 ++ [.createStack stackName]
      match env.create stackName with
      | .ok id => (.redisOk stackName portaFinal id, cache1, trace3)
      | .error e =>
          let r := handleAuthCatch cache1 e
          (r.1, r.2, trace3)
  else if tipoLower = "n8n" then
    if ¬ (strTruthy req.config.postgresHost ∧ strTruthy req.config.postgresDb ∧
          strTruthy req.config.postgresPassword) then
      (.badRequest "Configurações obrigatórias para N8N", cache1, trace2)
    else
      let nome := req.nome.getD ""
      let editorName := "n8n-editor-" ++ nome
      let webhookName := "n8n-webhook-" ++ nome
      let workerName := "n8n-worker-" ++ nome
      let i1 := runN8nInstance editorName "editor" env
      let i2 := runN8nInstance webhookName "webhook" env
      let i3 := runN8nInstance workerName "worker" env
      let stacksCreated := [i1.1, i2.1, i3.1].filterMap id
      let errors := [i1.2, i2.2, i3.2].filterMap id
      let trace3 := trace2 ++
        [.createStack editorName, .createStack webhookName, .createStack workerName]
      n8nAggregate stacksCreated errors cache1 trace3
  else
    (.badRequest "Tipo não suportado", cache1, trace2)

/-- The `POST /api/stack` handler.  Returns the response, the JWT cache
afterwards, and the ordered trace of downstream calls issued.  The
structure follows the source: required-field check, then
`getPortainerHeaders()` (login when the cache is not valid), then the
swarm-identifier lookup, and only then the per-kind branch
(`stackKindBranch`). -/
def postStack (req : StackReq) (cache : JwtCache) (now : Nat)
    (env : StackEnv) : StackResp × JwtCache × List DownCall :=
  if ¬ (strTruthy req.nome ∧ strTruthy req.tipo ∧ strTruthy req.rede) then
    (.badRequest "Campos obrigatórios: nome, tipo, rede", cache, [])
  else
    let auth := getValidJWT cache now env.loginResult
    let cache1 := auth.2.1
    let trace1 : List DownCall := if auth.2.2 then [.login] else []
    match auth.1 with
    | .error msg =>
        -- a plain `Error` has no `response`, so no 401 reset applies
        let r := handleAuthCatch cache1 ⟨none, none, msg⟩
        (r.1, r.2, trace1)
    | .ok _ =>
      let trace2 := trace1 ++ [.swarmLookup]
      match env.swarmResult with
      | .error e =>
          let r := handleAuthCatch cache1 e
          (r.1, r.2, trace2)
      | .ok _ => stackKindBranch req cache1 env trace2

/-- Environment of downstream responses for `GET /api/stacks`. -/
structure ListEnv where
  loginResult : Except String String
  listResult : Except HttpErr String

/-- The `GET /api/stacks` handler: obtain a valid JWT, issue the list
call, and on failure run the same catch (401 resets the cache). -/
def getStacksHandler (cache : JwtCache) (now : Nat) (env : ListEnv) :
    StackResp × JwtCache × List DownCall :=
  let auth := getValidJWT cache now env.loginResult
  let cache1 := auth.2.1
  let trace1 : List DownCall := if auth.2.2 then [.login] else []
  match auth.1 with
  | .error msg =>
      let r := handleAuthCatch cache1 ⟨none, none, msg⟩
      (r.1, r.2, trace1)
  | .ok _ =>
    let trace2 := trace1 ++ [.listStacks]
    match env.listResult with
    | .error e =>
        let r := handleAuthCatch cache1 e
        (r.1, r.2, trace2)
    | .ok body => (.errorResp 200 body, cache1, trace2)

theorem getValidJWT_ok_exists (cache : JwtCache) (now : Nat) (jwt : String) :
    ∃ t, (getValidJWT cache now (.ok jwt)).1 = .ok t := by
  unfold getValidJWT
  by_cases h : strTruthy cache.token ∧ cache.expiresAt.getD 0 > now
  · exact ⟨cache.token.getD "", by simp [h]⟩
  · exact ⟨jwt, by simp [h, authenticatePortainer]⟩

theorem postStack_reaches_branch (req : StackReq) (cache : JwtCache) (now : Nat)
    (env : StackEnv) (jwt sw : String)
    (hv : strTruthy req.nome ∧ strTruthy req.tipo ∧ strTruthy req.rede)
    (hl : env.loginResult = .ok jwt) (hs : env.swarmResult = .ok sw) :
    ∃ tr1, (tr1 = ([] : List DownCall) ∨ tr1 = [.login]) ∧
      postStack req cache now env =
        stackKindBranch req (getValidJWT cache now env.loginResult).2.1 env
          (tr1 ++ [.swarmLookup]) := by
  obtain ⟨t, ht⟩ := hl ▸ getValidJWT_ok_exists cache now jwt
  refine ⟨if (getValidJWT cache now env.loginResult).2.2 then [.login] else [], ?_, ?_⟩
  · by_cases hb : (getValidJWT cache now env.loginResult).2.2 <;> simp [hb]
  · simp only [postStack, hv.1, hv.2.1, hv.2.2, hs, ht, and_self, not_true_eq_false,
      if_false, Bool.true_and]

theorem stackKindBranch_redis_eval (req : StackReq) (cache1 : JwtCache)
    (env : StackEnv) (trace2 : List DownCall)
    (htipo : jsToLowerCase (req.tipo.getD "") = "redis") :
    stackKindBranch req cache1 env trace2 =
      if redisPortaFinal req.porta < 1024 ∨ redisPortaFinal req.porta > 65535 then
        (.badRequest "Porta inválida", cache1, trace2)
      else
        let stackName := "redis-" ++ req.nome.getD "" ++ "-" ++
          toString (redisPortaFinal req.porta)
        match env.create stackName with
        | .ok id => (.redisOk stackName (redisPortaFinal req.porta) id, cache1,
            trace2 ++ [.createStack stackName])
        | .error e => ((handleAuthCatch cache1 e).1, (handleAuthCatch cache1 e).2,
            trace2 ++ [.createStack stackName]) := by
  simp only [stackKindBranch, htipo, if_pos rfl]
  by_cases hp : redisPortaFinal req.porta < 1024 ∨ redisPortaFinal req.porta > 65535
  · simp [hp]
  · simp only [hp, if_false]
    cases env.create ("redis-" ++ req.nome.getD "" ++ "-" ++
        toString (redisPortaFinal req.porta)) <;> simp

/-- Claim C7: for a redis stack-creation request, port 1023 and port
65536 are rejected with the validation error, ports 1024 and 65535 are
accepted, an absent port defaults to 6379, and the stack name returned
on success is `redis-{name}-{port}`. -/
theorem redis_port_bounds (nome rede jwt sw : String) (cache : JwtCache)
    (now stackId : Nat) (hn : nome ≠ "") (hr : rede ≠ "") :
    ((postStack ⟨some nome, some "redis", some rede, some 1023, {}⟩ cache now
        ⟨.ok jwt, .ok sw, fun _ => .ok stackId, fun _ => false⟩).1 =
      .badRequest "Porta inválida") ∧
    ((postStack ⟨some nome, some "redis", some rede, some 65536, {}⟩ cache now
        ⟨.ok jwt, .ok sw, fun _ => .ok stackId, fun _ => false⟩).1 =
      .badRequest "Porta inválida") ∧
    ((postStack ⟨some nome, some "redis", some rede, some 1024, {}⟩ cache now
        ⟨.ok jwt, .ok sw, fun _ => .ok stackId, fun _ => false⟩).1 =
      .redisOk ("redis-" ++ nome ++ "-1024") 1024 stackId) ∧
    ((postStack ⟨some nome, some "redis", some rede, some 65535, {}⟩ cache now
        ⟨.ok jwt, .ok sw, fun _ => .ok stackId, fun _ => false⟩).1 =
      .redisOk ("redis-" ++ nome ++ "-65535") 65535 stackId) ∧
    ((postStack ⟨some nome, some "redis", some rede, none, {}⟩ cache now
        ⟨.ok jwt, .ok sw, fun _ => .ok stackId, fun _ => false⟩).1 =
      .redisOk ("redis-" ++ nome ++ "-6379") 6379 stackId) := by
  have hv : strTruthy (some nome) ∧ strTruthy (some "redis") ∧ strTruthy (some rede) :=
    ⟨by simp [strTruthy, hn], by simp [strTruthy], by simp [strTruthy, hr]⟩
  have key : ∀ p : Option Nat,
      ∃ tr1, (tr1 = ([] : List DownCall) ∨ tr1 = [.login]) ∧
      postStack ⟨some nome, some "redis", some rede, p, {}⟩ cache now
          ⟨.ok jwt, .ok sw, fun _ => .ok stackId, fun _ => false⟩ =
        stackKindBranch ⟨some nome, some "redis", some rede, p, {}⟩
          (getValidJWT cache now (.ok jwt)).2.1
          ⟨.ok jwt, .ok sw, fun _ => .ok stackId, fun _ => false⟩
          (tr1 ++ [.swarmLookup]) := fun p =>
    postStack_reaches_branch ⟨some nome, some "redis", some rede, p, {}⟩ cache now
      ⟨.ok jwt, .ok sw, fun _ => .ok stackId, fun _ => false⟩ jwt sw hv rfl rfl
  have hev := fun (p : Option Nat) (cache1 : JwtCache) (trace2 : List DownCall) =>
    stackKindBranch_redis_eval ⟨some nome, some "redis", some rede, p, {}⟩ cache1
      ⟨.ok jwt, .ok sw, fun _ => .ok stackId, fun _ => false⟩ trace2 rfl
  refine ⟨?_, ?_, ?_, ?_, ?_⟩
  · obtain ⟨tr1, _, heq⟩ := key (some 1023)
    rw [heq, hev (some 1023)]
    simp [redisPortaFinal]
  · obtain ⟨tr1, _, heq⟩ := key (some 65536)
    rw [heq, hev (some 65536)]
    simp [redisPortaFinal]
  · obtain ⟨tr1, _, heq⟩ := key (some 1024)
    rw [heq, hev (some 1024)]
    simp only [redisPortaFinal]
    norm_num
    rw [show (toString (1024:Nat)) = "1024" from rfl, String.append_assoc]
    rfl
  · obtain ⟨tr1, _, heq⟩ := key (some 65535)
    rw [heq, hev (some 65535)]
    simp only [redisPortaFinal]
    norm_num
    rw [show (toString (65535:Nat)) = "65535" from rfl, String.append_assoc]
    rfl
  · obtain ⟨tr1, _, heq⟩ := key none
    rw [heq, hev none]
    simp only [redisPortaFinal]
    norm_num
    rw [show (toString (6379:Nat)) = "6379" from rfl, String.append_assoc]
    rfl

/-- Witness for C7: concrete redis requests at the boundary ports. -/
theorem redis_port_bounds_witness :
    (postStack ⟨some "acme", some "redis", some "net", some 1023, {}⟩ ⟨none, none⟩ 0
        ⟨.ok "j", .ok "s", fun _ => .ok 7, fun _ => false⟩).1 =
      .badRequest "Porta inválida" ∧
    (postStack ⟨some "acme", some "redis", some "net", none, {}⟩ ⟨none, none⟩ 0
        ⟨.ok "j", .ok "s", fun _ => .ok 7, fun _ => false⟩).1 =
      .redisOk "redis-acme-6379" 6379 7 := by
  have h := redis_port_bounds "acme" "net" "j" "s" ⟨none, none⟩ 0 7
    (by decide) (by decide)
  exact ⟨h.1, h.2.2.2.2⟩

/-- Counterexample for C4: a redis request with out-of-range port 1023
is rejected only after the login and the cluster-identifier (swarm)
lookup have been issued — the trace of downstream calls is
`[login, swarmLookup]`, not `[]`. -/
theorem out_of_range_port_after_lookup :
    (postStack ⟨some "app", some "redis", some "net", some 1023, {}⟩ ⟨none, none⟩ 0
        ⟨.ok "jwt1", .ok "sw1", fun _ => .ok 1, fun _ => false⟩).2.2 =
      [.login, .swarmLookup] ∧
    (postStack ⟨some "app", some "redis", some "net", some 1023, {}⟩ ⟨none, none⟩ 0
        ⟨.ok "jwt1", .ok "sw1", fun _ => .ok 1, fun _ => false⟩).1 =
      .badRequest "Porta inválida" := by
  constructor <;> rfl

theorem stackKindBranch_n8n_invalid (req : StackReq) (cache1 : JwtCache)
    (env : StackEnv) (trace2 : List DownCall)
    (htipo : jsToLowerCase (req.tipo.getD "") = "n8n")
    (hcfg : ¬ (strTruthy req.config.postgresHost ∧ strTruthy req.config.postgresDb ∧
               strTruthy req.config.postgresPassword)) :
    stackKindBranch req cache1 env trace2 =
      (.badRequest "Configurações obrigatórias para N8N", cache1, trace2) := by
  have hne : ¬ (jsToLowerCase (req.tipo.getD "") = "redis") := by
    rw [htipo]; decide
  simp [stackKindBranch, htipo, hne, hcfg]

theorem stackKindBranch_unsupported (req : StackReq) (cache1 : JwtCache)
    (env : StackEnv) (trace2 : List DownCall)
    (h1 : jsToLowerCase (req.tipo.getD "") ≠ "redis")
    (h2 : jsToLowerCase (req.tipo.getD "") ≠ "n8n") :
    stackKindBranch req cache1 env trace2 =
      (.badRequest "Tipo não suportado", cache1, trace2) := by
  simp [stackKindBranch, h1, h2]

/-- Claim C4 (amended): a request missing one of the required fields
`nome`/`tipo`/`rede` is rejected with no downstream call at all; an
out-of-range redis port, a missing workflow (n8n) configuration field
and an unsupported kind are each rejected with a 400 validation
response after the login and cluster-identifier lookup but before any
create call — no `createStack` call appears in the trace. -/
theorem validation_rejection_points :
    (∀ (req : StackReq) (cache : JwtCache) (now : Nat) (env : StackEnv),
      ¬ (strTruthy req.nome ∧ strTruthy req.tipo ∧ strTruthy req.rede) →
      postStack req cache now env =
        (.badRequest "Campos obrigatórios: nome, tipo, rede", cache, [])) ∧
    (∀ (req : StackReq) (cache : JwtCache) (now : Nat) (env : StackEnv)
        (jwt sw : String),
      (strTruthy req.nome ∧ strTruthy req.tipo ∧ strTruthy req.rede) →
      env.loginResult = .ok jwt → env.swarmResult = .ok sw →
      jsToLowerCase (req.tipo.getD "") = "redis" →
      (redisPortaFinal req.porta < 1024 ∨ redisPortaFinal req.porta > 65535) →
      (postStack req cache now env).1 = .badRequest "Porta inválida" ∧
      ∀ n, DownCall.createStack n ∉ (postStack req cache now env).2.2) ∧
    (∀ (req : StackReq) (cache : JwtCache) (now : Nat) (env : StackEnv)
        (jwt sw : String),
      (strTruthy req.nome ∧ strTruthy req.tipo ∧ strTruthy req.rede) →
      env.loginResult = .ok jwt → env.swarmResult = .ok sw →
      jsToLowerCase (req.tipo.getD "") = "n8n" →
      ¬ (strTruthy req.config.postgresHost ∧ strTruthy req.config.postgresDb ∧
         strTruthy req.config.postgresPassword) →
      (postStack req cache now env).1 = .badRequest "Configurações obrigatórias para N8N" ∧
      ∀ n, DownCall.createStack n ∉ (postStack req cache now env).2.2) ∧
    (∀ (req : StackReq) (cache : JwtCache) (now : Nat) (env : StackEnv)
        (jwt sw : String),
      (strTruthy req.nome ∧ strTruthy req.tipo ∧ strTruthy req.rede) →
      env.loginResult = .ok jwt → env.swarmResult = .ok sw →
      jsToLowerCase (req.tipo.getD "") ≠ "redis" →
      jsToLowerCase (req.tipo.getD "") ≠ "n8n" →
      (postStack req cache now env).1 = .badRequest "Tipo não suportado" ∧
      ∀ n, DownCall.createStack n ∉ (postStack req cache now env).2.2) := by
  refine ⟨?_, ?_, ?_, ?_⟩
  · intro req cache now env hv
    simp [postStack, hv]
  · intro req cache now env jwt sw hv hl hs ht hp
    obtain ⟨tr1, htr, heq⟩ := postStack_reaches_branch req cache now env jwt sw hv hl hs
    rw [heq, stackKindBranch_redis_eval req _ env _ ht]
    refine ⟨by simp [hp], fun n => ?_⟩
    rcases htr with h1 | h1 <;> subst h1 <;> simp [hp]
  · intro req cache now env jwt sw hv hl hs ht hc
    obtain ⟨tr1, htr, heq⟩ := postStack_reaches_branch req cache now env jwt sw hv hl hs
    rw [heq, stackKindBranch_n8n_invalid req _ env _ ht hc]
    refine ⟨rfl, fun n => ?_⟩
    rcases htr with h1 | h1 <;> subst h1 <;> simp
  · intro req cache now env jwt sw hv hl hs h1 h2
    obtain ⟨tr1, htr, heq⟩ := postStack_reaches_branch req cache now env jwt sw hv hl hs
    rw [heq, stackKindBranch_unsupported req _ env _ h1 h2]
    refine ⟨rfl, fun n => ?_⟩
    rcases htr with h3 | h3 <;> subst h3 <;> simp

/-- Witness for the amended C4: a request with no `nome` is rejected
with an empty downstream trace. -/
theorem validation_rejection_points_witness :
    postStack ⟨none, some "redis", some "net", some 6380, {}⟩ ⟨none, none⟩ 0
        ⟨.ok "j", .ok "s", fun _ => .ok 7, fun _ => false⟩ =
      (.badRequest "Campos obrigatórios: nome, tipo, rede", ⟨none, none⟩, []) :=
  validation_rejection_points.1 ⟨none, some "redis", some "net", some 6380, {}⟩
    ⟨none, none⟩ 0 ⟨.ok "j", .ok "s", fun _ => .ok 7, fun _ => false⟩ (by decide)

theorem stackKindBranch_n8n_eval (req : StackReq) (cache1 : JwtCache)
    (env : StackEnv) (trace2 : List DownCall)
    (htipo : jsToLowerCase (req.tipo.getD "") = "n8n")
    (hcfg : strTruthy req.config.postgresHost ∧ strTruthy req.config.postgresDb ∧
            strTruthy req.config.postgresPassword) :
    stackKindBranch req cache1 env trace2 =
      (let nome := req.nome.getD ""
       let i1 := runN8nInstance ("n8n-editor-" ++ nome) "editor" env
       let i2 := runN8nInstance ("n8n-webhook-" ++ nome) "webhook" env
       let i3 := runN8nInstance ("n8n-worker-" ++ nome) "worker" env
       let stacksCreated := [i1.1, i2.1, i3.1].filterMap id
       let errors := [i1.2, i2.2, i3.2].filterMap id
       let trace3 := trace2 ++ [.createStack ("n8n-editor-" ++ nome),
         .createStack ("n8n-webhook-" ++ nome), .createStack ("n8n-worker-" ++ nome)]
       n8nAggregate stacksCreated errors cache1 trace3) := by
  have hne : ¬ (jsToLowerCase (req.tipo.getD "") = "redis") := by
    rw [htipo]; decide
  simp [stackKindBranch, htipo, hne, hcfg.1, hcfg.2.1, hcfg.2.2]

theorem runN8nInstance_shape (name key : String) (env : StackEnv) :
    (∃ st, runN8nInstance name key env = (some (name, st), none)) ∨
    (∃ m, runN8nInstance name key env = (none, some (key, m))) := by
  unfold runN8nInstance
  by_cases htz : env.timedOut name
  · exact .inl ⟨"criado", by simp [htz]⟩
  · cases hc : env.create name with
    | ok id => exact .inl ⟨"confirmado", by simp [htz, hc]⟩
    | error e => exact .inr ⟨e.message, by simp [htz, hc]⟩

/-- Recognizes a stack-creation call in a downstream trace. -/
def isCreateCall : DownCall → Bool
  | .createStack _ => true
  | _ => false

theorem n8n_counts (nome : String) (env : StackEnv) :
    ([(runN8nInstance ("n8n-editor-" ++ nome) "editor" env).1,
      (runN8nInstance ("n8n-webhook-" ++ nome) "webhook" env).1,
      (runN8nInstance ("n8n-worker-" ++ nome) "worker" env).1].filterMap id).length +
    ([(runN8nInstance ("n8n-editor-" ++ nome) "editor" env).2,
      (runN8nInstance ("n8n-webhook-" ++ nome) "webhook" env).2,
      (runN8nInstance ("n8n-worker-" ++ nome) "worker" env).2].filterMap id).length = 3 := by
  rcases runN8nInstance_shape ("n8n-editor-" ++ nome) "editor" env with ⟨st1, e1⟩ | ⟨m1, e1⟩ <;>
  rcases runN8nInstance_shape ("n8n-webhook-" ++ nome) "webhook" env with ⟨st2, e2⟩ | ⟨m2, e2⟩ <;>
  rcases runN8nInstance_shape ("n8n-worker-" ++ nome) "worker" env with ⟨st3, e3⟩ | ⟨m3, e3⟩ <;>
    simp [e1, e2, e3]

theorem n8nAggregate_cases (S E : List (String × String)) (cache1 : JwtCache)
    (trace3 : List DownCall) (hsum : S.length + E.length = 3) :
    (n8nAggregate S E cache1 trace3).2.2 = trace3 ∧
    (n8nAggregate S E cache1 trace3).2.1 = cache1 ∧
    ((∃ er, (n8nAggregate S E cache1 trace3).1 = .n8nAllFailed er ∧ er.length = 3) ∨
     (∃ c cr er, (n8nAggregate S E cache1 trace3).1 = .n8nOk true c 3 cr er ∧
        c = cr.length ∧ 1 ≤ c ∧ c ≤ 3)) := by
  unfold n8nAggregate
  by_cases hc : E.length > 0 ∧ S.length = 0
  · rw [if_pos hc]
    exact ⟨rfl, rfl, .inl ⟨E, rfl, by omega⟩⟩
  · have hpos : 0 < S.length := by omega
    rw [if_neg hc]
    refine ⟨rfl, rfl, .inr ⟨S.length, S, E, ?_, rfl, by omega, by omega⟩⟩
    simp [hpos]

/-- Claim C6: for a workflow-automation (n8n) request that passes
validation, exactly 3 create calls are attempted; failures are captured
per-instance (created + failed = 3, proved in `n8n_counts`); the
response is either the all-failed 500 (3 per-instance errors) or the
200 JSON with `success = true`, `stacksCriadas` equal to the number of
instances reported created and between 1 and 3 — never `success: true`
with `stacksCriadas = 0`. -/
theorem n8n_fanout_aggregation (req : StackReq) (cache : JwtCache) (now : Nat)
    (env : StackEnv) (jwt sw : String)
    (hv : strTruthy req.nome ∧ strTruthy req.tipo ∧ strTruthy req.rede)
    (hl : env.loginResult = .ok jwt) (hs : env.swarmResult = .ok sw)
    (ht : jsToLowerCase (req.tipo.getD "") = "n8n")
    (hcfg : strTruthy req.config.postgresHost ∧ strTruthy req.config.postgresDb ∧
            strTruthy req.config.postgresPassword) :
    ((postStack req cache now env).2.2.countP isCreateCall) = 3 ∧
    ((∃ er, (postStack req cache now env).1 = .n8nAllFailed er ∧ er.length = 3) ∨
     (∃ c cr er, (postStack req cache now env).1 = .n8nOk true c 3 cr er ∧
        c = cr.length ∧ 1 ≤ c ∧ c ≤ 3)) := by
  obtain ⟨tr1, htr, heq⟩ := postStack_reaches_branch req cache now env jwt sw hv hl hs
  rw [heq, stackKindBranch_n8n_eval req _ env _ ht hcfg]
  dsimp only
  have hsum := n8n_counts (req.nome.getD "") env
  have hagg := n8nAggregate_cases _ _ ((getValidJWT cache now env.loginResult).2.1)
    ((tr1 ++ [.swarmLookup]) ++ [.createStack ("n8n-editor-" ++ req.nome.getD ""),
      .createStack ("n8n-webhook-" ++ req.nome.getD ""),
      .createStack ("n8n-worker-" ++ req.nome.getD "")]) hsum
  refine ⟨?_, hagg.2.2⟩
  rw [hagg.1]
  have htr0 : tr1.countP isCreateCall = 0 := by
    rcases htr with h | h <;> subst h <;> rfl
  simp [List.countP_append, htr0, isCreateCall, List.countP_cons]

/-- Witness for C6: a concrete workflow request with all three create
calls succeeding. -/
theorem n8n_fanout_aggregation_witness :
    ((postStack ⟨some "cli", some "n8n", some "net", none,
        { postgresHost := some "h", postgresDb := some "d",
          postgresPassword := some "p" }⟩ ⟨none, none⟩ 0
        ⟨.ok "j", .ok "s", fun _ => .ok 9, fun _ => false⟩).2.2.countP isCreateCall) = 3 ∧
    ((∃ er, (postStack ⟨some "cli", some "n8n", some "net", none,
        { postgresHost := some "h", postgresDb := some "d",
          postgresPassword := some "p" }⟩ ⟨none, none⟩ 0
        ⟨.ok "j", .ok "s", fun _ => .ok 9, fun _ => false⟩).1 =
          .n8nAllFailed er ∧ er.length = 3) ∨
     (∃ c cr er, (postStack ⟨some "cli", some "n8n", some "net", none,
        { postgresHost := some "h", postgresDb := some "d",
          postgresPassword := some "p" }⟩ ⟨none, none⟩ 0
        ⟨.ok "j", .ok "s", fun _ => .ok 9, fun _ => false⟩).1 =
          .n8nOk true c 3 cr er ∧ c = cr.length ∧ 1 ≤ c ∧ c ≤ 3)) :=
  n8n_fanout_aggregation ⟨some "cli", some "n8n", some "net", none,
      { postgresHost := some "h", postgresDb := some "d",
        postgresPassword := some "p" }⟩ ⟨none, none⟩ 0
    ⟨.ok "j", .ok "s", fun _ => .ok 9, fun _ => false⟩ "j" "s"
    (by decide) rfl rfl (by decide) (by decide)

/-- Counterexample for C5: a workflow (n8n) request supplying only the
three database fields — all cache fields (`redisHost`, `redisPort`,
`redisPassword`) missing — is NOT rejected with a validation error: the
three create calls are issued and the request succeeds. -/
theorem n8n_missing_cache_fields_pass :
    (postStack ⟨some "cli", some "n8n", some "net", none,
        { postgresHost := some "h", postgresDb := some "d",
          postgresPassword := some "p" }⟩ ⟨none, none⟩ 0
        ⟨.ok "j", .ok "s", fun _ => .ok 9, fun _ => false⟩).1 =
      .n8nOk true 3 3 [("n8n-editor-cli", "confirmado"),
        ("n8n-webhook-cli", "confirmado"), ("n8n-worker-cli", "confirmado")] [] ∧
    (postStack ⟨some "cli", some "n8n", some "net", none,
        { postgresHost := some "h", postgresDb := some "d",
          postgresPassword := some "p" }⟩ ⟨none, none⟩ 0
        ⟨.ok "j", .ok "s", fun _ => .ok 9, fun _ => false⟩).2.2 =
      [.login, .swarmLookup, .createStack "n8n-editor-cli",
        .createStack "n8n-webhook-cli", .createStack "n8n-worker-cli"] := by
  constructor <;> rfl

/-- Claim C5 (amended): only the three database fields (`postgresHost`,
`postgresDb`, `postgresPassword`) are validated for a workflow (n8n)
request: if any of them is missing the request fails with the 400
validation response and no create call is issued; when all three are
present the request proceeds to the three create calls regardless of
the cache (`redis*`) fields, which are not validated. -/
theorem n8n_validates_postgres_only (req : StackReq) (cache : JwtCache)
    (now : Nat) (env : StackEnv) (jwt sw : String)
    (hv : strTruthy req.nome ∧ strTruthy req.tipo ∧ strTruthy req.rede)
    (hl : env.loginResult = .ok jwt) (hs : env.swarmResult = .ok sw)
    (ht : jsToLowerCase (req.tipo.getD "") = "n8n") :
    (¬ (strTruthy req.config.postgresHost ∧ strTruthy req.config.postgresDb ∧
        strTruthy req.config.postgresPassword) →
      (postStack req cache now env).1 = .badRequest "Configurações obrigatórias para N8N" ∧
      ∀ n, DownCall.createStack n ∉ (postStack req cache now env).2.2) ∧
    ((strTruthy req.config.postgresHost ∧ strTruthy req.config.postgresDb ∧
      strTruthy req.config.postgresPassword) →
      ((postStack req cache now env).2.2.countP isCreateCall) = 3) := by
  obtain ⟨tr1, htr, heq⟩ := postStack_reaches_branch req cache now env jwt sw hv hl hs
  constructor
  · intro hc
    rw [heq, stackKindBranch_n8n_invalid req _ env _ ht hc]
    refine ⟨rfl, fun n => ?_⟩
    rcases htr with h1 | h1 <;> subst h1 <;> simp
  · intro hcfg
    rw [heq, stackKindBranch_n8n_eval req _ env _ ht hcfg]
    dsimp only
    have hsum := n8n_counts (req.nome.getD "") env
    have hagg := n8nAggregate_cases _ _ ((getValidJWT cache now env.loginResult).2.1)
      ((tr1 ++ [.swarmLookup]) ++ [.createStack ("n8n-editor-" ++ req.nome.getD ""),
        .createStack ("n8n-webhook-" ++ req.nome.getD ""),
        .createStack ("n8n-worker-" ++ req.nome.getD "")]) hsum
    rw [hagg.1]
    have htr0 : tr1.countP isCreateCall = 0 := by
      rcases htr with h | h <;> subst h <;> rfl
    simp [List.countP_append, htr0, isCreateCall, List.countP_cons]

/-- Witness for the amended C5: a request missing `postgresDb` is
rejected with the validation error. -/
theorem n8n_validates_postgres_only_witness :
    (postStack ⟨some "cli", some "n8n", some "net", none,
        { postgresHost := some "h", postgresPassword := some "p" }⟩ ⟨none, none⟩ 0
        ⟨.ok "j", .ok "s", fun _ => .ok 9, fun _ => false⟩).1 =
      .badRequest "Configurações obrigatórias para N8N" :=
  ((n8n_validates_postgres_only ⟨some "cli", some "n8n", some "net", none,
      { postgresHost := some "h", postgresPassword := some "p" }⟩ ⟨none, none⟩ 0
      ⟨.ok "j", .ok "s", fun _ => .ok 9, fun _ => false⟩ "j" "s"
      (by decide) rfl rfl (by decide)).1 (by decide)).1

/-- Counterexample for C2: a 401 failure of an individual
workflow-automation create call is caught per-instance: the Session
Credential cache is NOT reset (the token and expiry survive untouched),
the response even reports overall success, and the next `getValidJWT`
call does NOT re-authenticate (the cached token is still honoured). -/
theorem n8n_instance_401_no_invalidation :
    (postStack ⟨some "cli", some "n8n", some "net", none,
        { postgresHost := some "h", postgresDb := some "d",
          postgresPassword := some "p" }⟩ ⟨some "tok", some 1000⟩ 0
        ⟨.ok "fresh", .ok "sw",
         fun n => if n = "n8n-editor-cli" then
             .error ⟨some 401, none, "Request failed with status code 401"⟩
           else .ok 5,
         fun _ => false⟩).2.1 = ⟨some "tok", some 1000⟩ ∧
    (postStack ⟨some "cli", some "n8n", some "net", none,
        { postgresHost := some "h", postgresDb := some "d",
          postgresPassword := some "p" }⟩ ⟨some "tok", some 1000⟩ 0
        ⟨.ok "fresh", .ok "sw",
         fun n => if n = "n8n-editor-cli" then
             .error ⟨some 401, none, "Request failed with status code 401"⟩
           else .ok 5,
         fun _ => false⟩).1 =
      .n8nOk true 2 3 [("n8n-webhook-cli", "confirmado"), ("n8n-worker-cli", "confirmado")]
        [("editor", "Request failed with status code 401")] ∧
    (getValidJWT ⟨some "tok", some 1000⟩ 0 (.ok "other")).2.2 = false := by
  refine ⟨?_, ?_, ?_⟩ <;> rfl

theorem handleAuthCatch_401 (cache : JwtCache) (e : HttpErr)
    (h : e.status = some 401) :
    handleAuthCatch cache e =
      (.errorResp 401 (e.data.getD e.message), ⟨none, none⟩) := by
  simp [handleAuthCatch, h]

theorem postStack_swarm_error (req : StackReq) (cache : JwtCache) (now : Nat)
    (env : StackEnv) (jwt : String) (e : HttpErr)
    (hv : strTruthy req.nome ∧ strTruthy req.tipo ∧ strTruthy req.rede)
    (hl : env.loginResult = .ok jwt) (hs : env.swarmResult = .error e) :
    ∃ tr1, (tr1 = ([] : List DownCall) ∨ tr1 = [.login]) ∧
      postStack req cache now env =
        ((handleAuthCatch (getValidJWT cache now env.loginResult).2.1 e).1,
         (handleAuthCatch (getValidJWT cache now env.loginResult).2.1 e).2,
         tr1 ++ [.swarmLookup]) := by
  obtain ⟨t, ht⟩ := hl ▸ getValidJWT_ok_exists cache now jwt
  refine ⟨if (getValidJWT cache now env.loginResult).2.2 then [.login] else [], ?_, ?_⟩
  · by_cases hb : (getValidJWT cache now env.loginResult).2.2 <;> simp [hb]
  · simp only [postStack, hv.1, hv.2.1, hv.2.2, hs, ht, and_self, not_true_eq_false,
      if_false, Bool.true_and]

/-- Claim C2 (amended): a 401 failure that reaches the route-level
catch — the cluster-identifier lookup or the redis create call of
`POST /api/stack`, or the list call of `GET /api/stacks` — resets the
Session Credential cache to absent and surfaces a 401 error response
without retrying the failing call inside the same request (the call
appears exactly once in the trace); after the reset every `getValidJWT`
call re-authenticates regardless of the previously recorded expiry.
(401 failures of the individual workflow-automation create calls are
captured per-instance and do not reset the cache — see the
counterexample.) -/
theorem auth_denied_invalidation (req : StackReq) (cache : JwtCache)
    (now : Nat) (env : StackEnv) (lenv : ListEnv) (jwt : String) (e : HttpErr)
    (h401 : e.status = some 401) :
    (lenv.loginResult = .ok jwt → lenv.listResult = .error e →
      (getStacksHandler cache now lenv).2.1 = ⟨none, none⟩ ∧
      (getStacksHandler cache now lenv).1 = .errorResp 401 (e.data.getD e.message) ∧
      ((getStacksHandler cache now lenv).2.2.countP
        (fun c => decide (c = DownCall.listStacks))) = 1) ∧
    ((strTruthy req.nome ∧ strTruthy req.tipo ∧ strTruthy req.rede) →
      env.loginResult = .ok jwt → env.swarmResult = .error e →
      (postStack req cache now env).2.1 = ⟨none, none⟩ ∧
      (postStack req cache now env).1 = .errorResp 401 (e.data.getD e.message) ∧
      ((postStack req cache now env).2.2.countP
        (fun c => decide (c = DownCall.swarmLookup))) = 1) ∧
    ((strTruthy req.nome ∧ strTruthy req.tipo ∧ strTruthy req.rede) →
      env.loginResult = .ok jwt → (∃ sw, env.swarmResult = .ok sw) →
      jsToLowerCase (req.tipo.getD "") = "redis" →
      ¬ (redisPortaFinal req.porta < 1024 ∨ redisPortaFinal req.porta > 65535) →
      env.create ("redis-" ++ req.nome.getD "" ++ "-" ++
        toString (redisPortaFinal req.porta)) = .error e →
      (postStack req cache now env).2.1 = ⟨none, none⟩ ∧
      (postStack req cache now env).1 = .errorResp 401 (e.data.getD e.message) ∧
      ((postStack req cache now env).2.2.countP isCreateCall) = 1) ∧
    (∀ (now' : Nat) (r : Except String String),
      (getValidJWT ⟨none, none⟩ now' r).2.2 = true) := by
  refine ⟨?_, ?_, ?_, ?_⟩
  · intro hl hlist
    obtain ⟨t, ht⟩ := hl ▸ getValidJWT_ok_exists cache now jwt
    have heq : getStacksHandler cache now lenv =
        ((handleAuthCatch (getValidJWT cache now lenv.loginResult).2.1 e).1,
         (handleAuthCatch (getValidJWT cache now lenv.loginResult).2.1 e).2,
         (if (getValidJWT cache now lenv.loginResult).2.2 then [.login] else []) ++
           [.listStacks]) := by
      simp only [getStacksHandler, hlist, ht]
    rw [heq, handleAuthCatch_401 _ _ h401]
    refine ⟨rfl, rfl, ?_⟩
    by_cases hb : (getValidJWT cache now lenv.loginResult).2.2 <;> simp [hb]
  · intro hv hl hs
    obtain ⟨tr1, htr, heq⟩ := postStack_swarm_error req cache now env jwt e hv hl hs
    rw [heq, handleAuthCatch_401 _ _ h401]
    refine ⟨rfl, rfl, ?_⟩
    rcases htr with h | h <;> subst h <;> simp
  · intro hv hl hsw ht hp hce
    obtain ⟨sw, hs⟩ := hsw
    obtain ⟨tr1, htr, heq⟩ := postStack_reaches_branch req cache now env jwt sw hv hl hs
    rw [heq, stackKindBranch_redis_eval req _ env _ ht]
    rw [if_neg hp]
    simp only [hce]
    rw [handleAuthCatch_401 _ _ h401]
    have htr0 : tr1.countP isCreateCall = 0 := by
      rcases htr with h | h <;> subst h <;> rfl
    refine ⟨rfl, rfl, ?_⟩
    simp [List.countP_append, htr0, isCreateCall, List.countP_cons]
  · intro now' r
    simp [getValidJWT, strTruthy]

/-- Witness for the amended C2: a concrete 401 on the stack-list call
resets the cache, surfaces 401, and issues the list call once. -/
theorem auth_denied_invalidation_witness :
    (getStacksHandler ⟨some "tok", some 999⟩ 0
        ⟨.ok "j", .error ⟨some 401, some "Unauthorized", "fail"⟩⟩).2.1 =
      ⟨none, none⟩ ∧
    (getStacksHandler ⟨some "tok", some 999⟩ 0
        ⟨.ok "j", .error ⟨some 401, some "Unauthorized", "fail"⟩⟩).1 =
      .errorResp 401 "Unauthorized" ∧
    ((getStacksHandler ⟨some "tok", some 999⟩ 0
        ⟨.ok "j", .error ⟨some 401, some "Unauthorized", "fail"⟩⟩).2.2.countP
      (fun c => decide (c = DownCall.listStacks))) = 1 :=
  (auth_denied_invalidation ⟨some "x", some "redis", some "n", none, {}⟩
      ⟨some "tok", some 999⟩ 0 ⟨.ok "j", .ok "s", fun _ => .ok 0, fun _ => false⟩
      ⟨.ok "j", .error ⟨some 401, some "Unauthorized", "fail"⟩⟩ "j"
      ⟨some 401, some "Unauthorized", "fail"⟩ rfl).1 rfl rfl

/-- The payload (`recordData`) sent to the DNS provider: record type,
fully-qualified name, content, `ttl: 1`, `proxied`. -/
structure RecordData where
  type : String
  name : String
  content : String
  ttl : Nat
  proxied : Bool
deriving Repr, DecidableEq

/-- A record stored at the DNS provider: the provider-assigned `id`
plus its data. -/
structure StoredRecord where
  id : String
  data : RecordData
deriving Repr, DecidableEq

/-- One call issued to the DNS provider: the list query
(`GET dns_records?name=...`), an update (`PUT dns_records/:id`) or a
create (`POST dns_records`). -/
inductive DnsOp where
  | query (name : String)
  | update (id : String) (payload : RecordData)
  | create (payload : RecordData)
deriving Repr, DecidableEq

/-- Recognizes a write (update-or-create) among DNS provider calls. -/
def isDnsWrite : DnsOp → Bool
  | .query _ => false
  | .update _ _ => true
  | .create _ => true

/-- Model of `createCloudflareRecord`: builds `subdomain = nome.DOMAIN`, queries
the provider for records of that name, takes `result[0]`; if a record
exists it is updated in place (PUT at its id), otherwise a new record is
created (POST).  `state` is the provider zone content and `freshId` the
id the provider assigns on create; the function returns the ordered list
of provider calls and the zone content afterwards. -/
def createCloudflareRecord (domain nome tipo targetValue : String)
    (proxied : Bool) (state : List StoredRecord) (freshId : String) :
    List DnsOp × List StoredRecord :=
  let subdomain := nome ++ "." ++ domain
  let found := state.filter (fun r => decide (r.data.name = subdomain))
  let recordData : RecordData := ⟨tipo, subdomain, targetValue, 1, proxied⟩
  match found.head? with
  | some existing =>
      ([.query subdomain, .update existing.id recordData],
       state.map (fun r => if r.id = existing.id then ⟨r.id, recordData⟩ else r))
  | none =>
      ([.query subdomain, .create recordData], state ++ [⟨freshId, recordData⟩])

theorem createCloudflareRecord_create_eq (domain nome tipo target : String)
    (proxied : Bool) (state : List StoredRecord) (freshId : String)
    (h : state.filter (fun r => decide (r.data.name = nome ++ "." ++ domain)) = []) :
    createCloudflareRecord domain nome tipo target proxied state freshId =
      ([.query (nome ++ "." ++ domain),
        .create ⟨tipo, nome ++ "." ++ domain, target, 1, proxied⟩],
       state ++ [⟨freshId, ⟨tipo, nome ++ "." ++ domain, target, 1, proxied⟩⟩]) := by
  simp [createCloudflareRecord, h]

theorem createCloudflareRecord_update_eq (domain nome tipo target : String)
    (proxied : Bool) (state : List StoredRecord) (freshId : String)
    (ex : StoredRecord) (rest : List StoredRecord)
    (h : state.filter (fun r => decide (r.data.name = nome ++ "." ++ domain)) = ex :: rest) :
    createCloudflareRecord domain nome tipo target proxied state freshId =
      ([.query (nome ++ "." ++ domain),
        .update ex.id ⟨tipo, nome ++ "." ++ domain, target, 1, proxied⟩],
       state.map (fun r => if r.id = ex.id then
         ⟨r.id, ⟨tipo, nome ++ "." ++ domain, target, 1, proxied⟩⟩ else r)) := by
  simp [createCloudflareRecord, h]

/-- Claim C8: every DNS record request first queries the provider for
the fully-qualified name and then issues exactly one write — an update
when a record of that name was found, a create when none was — never
both and never neither; and submitting the same record twice starting
from a zone with no matching record yields one create (first call)
followed by one update (second call). -/
theorem dns_upsert_exactly_one (domain nome tipo target : String)
    (proxied : Bool) (state : List StoredRecord) (freshId freshId2 : String) :
    ((createCloudflareRecord domain nome tipo target proxied state freshId).1.head? =
      some (.query (nome ++ "." ++ domain))) ∧
    ((createCloudflareRecord domain nome tipo target proxied state freshId).1.countP
      isDnsWrite = 1) ∧
    (state.filter (fun r => decide (r.data.name = nome ++ "." ++ domain)) = [] →
      (createCloudflareRecord domain nome tipo target proxied state freshId).1 =
        [.query (nome ++ "." ++ domain),
         .create ⟨tipo, nome ++ "." ++ domain, target, 1, proxied⟩] ∧
      (createCloudflareRecord domain nome tipo target proxied
          (createCloudflareRecord domain nome tipo target proxied state freshId).2
          freshId2).1 =
        [.query (nome ++ "." ++ domain),
         .update freshId ⟨tipo, nome ++ "." ++ domain, target, 1, proxied⟩]) ∧
    (∀ ex rest,
      state.filter (fun r => decide (r.data.name = nome ++ "." ++ domain)) = ex :: rest →
      (createCloudflareRecord domain nome tipo target proxied state freshId).1 =
        [.query (nome ++ "." ++ domain),
         .update ex.id ⟨tipo, nome ++ "." ++ domain, target, 1, proxied⟩]) := by
  cases hF : state.filter (fun r => decide (r.data.name = nome ++ "." ++ domain)) with
  | nil =>
    have h1 := createCloudflareRecord_create_eq domain nome tipo target proxied state
      freshId hF
    refine ⟨by rw [h1]; rfl, by rw [h1]; rfl, fun _ => ⟨by rw [h1], ?_⟩,
      fun ex rest hx => absurd hx (by simp)⟩
    have h2 : ((state ++ [⟨freshId, ⟨tipo, nome ++ "." ++ domain, target, 1, proxied⟩⟩] :
        List StoredRecord).filter (fun r => decide (r.data.name = nome ++ "." ++ domain))) =
        ⟨freshId, ⟨tipo, nome ++ "." ++ domain, target, 1, proxied⟩⟩ :: [] := by
      rw [List.filter_append, hF]
      simp
    rw [h1]
    have h3 := createCloudflareRecord_update_eq domain nome tipo target proxied
      (state ++ [⟨freshId, ⟨tipo, nome ++ "." ++ domain, target, 1, proxied⟩⟩]) freshId2
      ⟨freshId, ⟨tipo, nome ++ "." ++ domain, target, 1, proxied⟩⟩ [] h2
    rw [h3]
  | cons ex rest =>
    have h1 := createCloudflareRecord_update_eq domain nome tipo target proxied state
      freshId ex rest hF
    refine ⟨by rw [h1]; rfl, by rw [h1]; rfl, fun hx => absurd hx (by simp),
      fun ex2 rest2 hx => ?_⟩
    obtain ⟨he, -⟩ := List.cons.inj hx
    rw [h1, he]

/-- Witness for C8: a concrete zone with no matching record — the first
call creates, the second updates. -/
theorem dns_upsert_exactly_one_witness :
    (createCloudflareRecord "ex.com" "app1" "A" "1.2.3.4" true [] "id1").1 =
      [.query "app1.ex.com", .create ⟨"A", "app1.ex.com", "1.2.3.4", 1, true⟩] ∧
    (createCloudflareRecord "ex.com" "app1" "A" "1.2.3.4" true
        (createCloudflareRecord "ex.com" "app1" "A" "1.2.3.4" true [] "id1").2 "id2").1 =
      [.query "app1.ex.com", .update "id1" ⟨"A", "app1.ex.com", "1.2.3.4", 1, true⟩] :=
  (dns_upsert_exactly_one "ex.com" "app1" "A" "1.2.3.4" true [] "id1" "id2").2.2.1 rfl

/-- An ingress rule of the tunnel configuration: `hostname` is absent
(`none`) on the catch-all rule; `noTLSVerify` mirrors
`originRequest.noTLSVerify` (rules fetched from the provider are passed
through unchanged, so only the new rule's value matters). -/
structure IngressRule where
  hostname : Option String
  service : String
  noTLSVerify : Bool := false
deriving Repr, DecidableEq

/-- The ingress-list rewrite of `addHostnameToTunnel`: drop any rule
whose hostname strictly equals the new hostname, split the remainder
into hostname-bearing rules (JS-truthy hostname) and the first
catch-all (`find`), then emit other rules + the new rule + the
catch-all (if one was found). -/
def addHostnameRewrite (existingIngress : List IngressRule)
    (hostname service : String) : List IngressRule :=
  let filteredIngress := existingIngress.filter
    (fun rule => decide (rule.hostname ≠ some hostname))
  let catchAllRule := filteredIngress.find? (fun rule => !(strTruthy rule.hostname))
  let otherRules := filteredIngress.filter (fun rule => strTruthy rule.hostname)
  let newRule : IngressRule := ⟨some hostname, service, true⟩
  let newIngress := otherRules ++ [newRule]
  match catchAllRule with
  | some c => newIngress ++ [c]
  | none => newIngress

theorem addHostnameRewrite_eq (existingIngress : List IngressRule)
    (hostname service : String) :
    addHostnameRewrite existingIngress hostname service =
      (existingIngress.filter (fun rule => decide (rule.hostname ≠ some hostname))).filter
          (fun rule => strTruthy rule.hostname) ++
        [⟨some hostname, service, true⟩] ++
        ((existingIngress.filter (fun rule => decide (rule.hostname ≠ some hostname))).find?
          (fun rule => !(strTruthy rule.hostname))).toList := by
  unfold addHostnameRewrite
  dsimp only
  cases h : (existingIngress.filter (fun rule => decide (rule.hostname ≠ some hostname))).find?
      (fun rule => !(strTruthy rule.hostname)) <;> simp

/-- Counterexample for C9: an input list carrying two rules for the
same hostname `a` (different from the new hostname) keeps both through
the rewrite, so "at most one rule per hostname" fails for arbitrary
input lists — the rewrite preserves the invariant but does not
establish it. -/
theorem ingress_duplicate_hostnames_persist :
    addHostnameRewrite [⟨some "a", "s1", false⟩, ⟨some "a", "s2", false⟩] "b" "svc" =
      [⟨some "a", "s1", false⟩, ⟨some "a", "s2", false⟩, ⟨some "b", "svc", true⟩] ∧
    ((addHostnameRewrite [⟨some "a", "s1", false⟩, ⟨some "a", "s2", false⟩] "b"
      "svc").countP (fun r => decide (r.hostname = some "a"))) = 2 := by
  constructor <;> rfl

/-- Claim C9 (amended): the rewrite unconditionally places every
hostname-bearing rule before every catch-all rule and, whenever the
input contained a catch-all, the output ends in a catch-all; the
"at most one rule per hostname" property is preserved — it holds of
the output whenever it holds of the input — but it is not established
for inputs that already carry duplicate hostnames (see the
counterexample). -/
theorem ingress_rewrite_invariants (existingIngress : List IngressRule)
    (hostname service : String) :
    (∃ a b, addHostnameRewrite existingIngress hostname service = a ++ b ∧
      (∀ r ∈ a, strTruthy r.hostname = true) ∧
      (∀ r ∈ b, strTruthy r.hostname = false)) ∧
    ((∃ r ∈ existingIngress, strTruthy r.hostname = false) →
      ∃ c, (addHostnameRewrite existingIngress hostname service).getLast? = some c ∧
        strTruthy c.hostname = false) ∧
    ((∀ h, (existingIngress.countP (fun r => decide (r.hostname = some h))) ≤ 1) →
      ∀ h, ((addHostnameRewrite existingIngress hostname service).countP
        (fun r => decide (r.hostname = some h))) ≤ 1) := by
  have hout := addHostnameRewrite_eq existingIngress hostname service
  set F := existingIngress.filter (fun rule => decide (rule.hostname ≠ some hostname))
    with hFdef
  set O := F.filter (fun rule => strTruthy rule.hostname) with hOdef
  set Copt := F.find? (fun rule => !(strTruthy rule.hostname)) with hCdef
  set N : IngressRule := ⟨some hostname, service, true⟩ with hNdef
  have hO_mem : ∀ r ∈ O, strTruthy r.hostname = true :=
    fun r hr => (List.mem_filter.mp hr).2
  have hO_inF : ∀ r ∈ O, r ∈ F := fun r hr => (List.mem_filter.mp hr).1
  have hF_ne : ∀ r ∈ F, ¬ (r.hostname = some hostname) := fun r hr => by
    have := (List.mem_filter.mp hr).2
    simpa using this
  have hF_inE : ∀ r ∈ F, r ∈ existingIngress := fun r hr => (List.mem_filter.mp hr).1
  have hC_false : ∀ c, Copt = some c → strTruthy c.hostname = false := fun c hc => by
    have := List.find?_some hc
    simpa using this
  have hC_inF : ∀ c, Copt = some c → c ∈ F := fun c hc => List.mem_of_find?_eq_some hc
  refine ⟨?_, ?_, ?_⟩
  · by_cases hh : strTruthy (some hostname) = true
    · refine ⟨O ++ [N], Copt.toList, ?_, ?_, ?_⟩
      · rw [hout, List.append_assoc]
      · intro r hr
        rcases List.mem_append.mp hr with h1 | h1
        · exact hO_mem r h1
        · have : r = N := by simpa using h1
          subst this
          exact hh
      · intro r hr
        cases hc : Copt with
        | none => rw [hc] at hr; simp at hr
        | some c =>
            rw [hc] at hr
            have : r = c := by simpa using hr
            subst this
            exact hC_false r hc
    · simp only [Bool.not_eq_true] at hh
      refine ⟨O, N :: Copt.toList, ?_, hO_mem, ?_⟩
      · rw [hout, List.append_assoc]; rfl
      · intro r hr
        rcases List.mem_cons.mp hr with h1 | h1
        · subst h1; exact hh
        · cases hc : Copt with
          | none => rw [hc] at h1; simp at h1
          | some c =>
              rw [hc] at h1
              have : r = c := by simpa using h1
              subst this
              exact hC_false r hc
  · rintro ⟨r, hr, hrfalse⟩
    cases hc : Copt with
    | some c =>
        refine ⟨c, ?_, hC_false c hc⟩
        rw [hout, hc]
        show ((O ++ [N]) ++ [c]).getLast? = some c
        rw [List.getLast?_concat]
    | none =>
        have h1 : r.hostname = some hostname := by
          by_contra hne
          have hrF : r ∈ F := List.mem_filter.mpr ⟨hr, by simpa using hne⟩
          have := List.find?_eq_none.mp hc r hrF
          simp [hrfalse] at this
        have h2 : strTruthy (some hostname) = false := h1 ▸ hrfalse
        refine ⟨N, ?_, h2⟩
        rw [hout, hc]
        show ((O ++ [N]) ++ []).getLast? = some N
        rw [List.append_nil, List.getLast?_concat]
  · intro huniq h
    rw [hout]
    rw [List.countP_append, List.countP_append]
    by_cases hh : h = hostname
    · subst hh
      have hO0 : O.countP (fun r => decide (r.hostname = some h)) = 0 :=
        List.countP_eq_zero.mpr (fun r hr => by
          have := hF_ne r (hO_inF r hr)
          simpa using this)
      have hN1 : ([N].countP (fun r => decide (r.hostname = some h))) = 1 := by
        simp [List.countP_cons]
      have hC0 : (Copt.toList.countP (fun r => decide (r.hostname = some h))) = 0 := by
        cases hc : Copt with
        | none => rfl
        | some c =>
            have := hF_ne c (hC_inF c hc)
            simp [List.countP_cons, this]
      omega
    · have hN0 : ([N].countP (fun r => decide (r.hostname = some h))) = 0 := by
        simp [List.countP_cons]
        exact fun habs => hh habs.symm
      by_cases hE : h = ""
      · subst hE
        have hO0 : O.countP (fun r => decide (r.hostname = some "")) = 0 :=
          List.countP_eq_zero.mpr (fun r hr => by
            have htr := hO_mem r hr
            intro habs
            simp at habs
            rw [habs] at htr
            simp [strTruthy] at htr)
        have hC1 : (Copt.toList.countP (fun r => decide (r.hostname = some ""))) ≤ 1 := by
          cases Copt <;> simp [List.countP_cons] <;> split <;> simp
        omega
      · have hC0 : (Copt.toList.countP (fun r => decide (r.hostname = some h))) = 0 := by
          cases hc : Copt with
          | none => rfl
          | some c =>
              have hcf := hC_false c hc
              simp [List.countP_cons]
              intro habs
              rw [habs] at hcf
              simp [strTruthy, hE] at hcf
        have hO_le : O.countP (fun r => decide (r.hostname = some h)) ≤
            existingIngress.countP (fun r => decide (r.hostname = some h)) := by
          calc O.countP (fun r => decide (r.hostname = some h)) =
              F.countP (fun r => decide (r.hostname = some h) && strTruthy r.hostname) :=
                List.countP_filter ..
            _ ≤ F.countP (fun r => decide (r.hostname = some h)) :=
                List.countP_mono_left (fun a _ hpa => by
                  exact ((Bool.and_eq_true _ _).mp hpa).1)
            _ = existingIngress.countP (fun r => decide (r.hostname = some h) &&
                  decide (r.hostname ≠ some hostname)) := List.countP_filter ..
            _ ≤ existingIngress.countP (fun r => decide (r.hostname = some h)) :=
                List.countP_mono_left (fun a _ hpa => by
                  exact ((Bool.and_eq_true _ _).mp hpa).1)
        have := huniq h
        omega

/-- Witness for the amended C9: a concrete rewrite on a well-formed
rule list — one hostname rule and a catch-all — keeps the catch-all
last and one rule per hostname, with the catch-all-existence and
input-uniqueness hypotheses discharged at the concrete input. -/
theorem ingress_rewrite_invariants_witness :
    (∃ a b, addHostnameRewrite [⟨some "x.d", "s1", false⟩, ⟨none, "catch", false⟩]
        "y.d" "svc" = a ++ b ∧
      (∀ r ∈ a, strTruthy r.hostname = true) ∧
      (∀ r ∈ b, strTruthy r.hostname = false)) ∧
    (∃ c, (addHostnameRewrite [⟨some "x.d", "s1", false⟩, ⟨none, "catch", false⟩]
        "y.d" "svc").getLast? = some c ∧ strTruthy c.hostname = false) ∧
    (∀ h, ((addHostnameRewrite [⟨some "x.d", "s1", false⟩, ⟨none, "catch", false⟩]
        "y.d" "svc").countP (fun r => decide (r.hostname = some h))) ≤ 1) := by
  have h := ingress_rewrite_invariants
    [⟨some "x.d", "s1", false⟩, ⟨none, "catch", false⟩] "y.d" "svc"
  exact ⟨h.1, h.2.1 ⟨⟨none, "catch", false⟩, by simp, rfl⟩,
    h.2.2 (fun h' => by
      simp only [List.countP_cons, List.countP_nil]
      split <;> split <;> simp_all [strTruthy])⟩
